import Mathlib

/-!
Verification of the Job-Recommendation-System repository against its
natural-language specification.

The embedding covers two source files:
* `src/framework/metrics.py` — three pure ratio functions, modelled over ℚ
  (Python number division is modelled as exact rational division).
* `selenium_jobstreet_scraper.py` — the `JobStreetScraper` class.  The
  browser driver is an external collaborator; a card element is modelled as
  the environment of text values its locator lookups resolve to (a failed
  `find_element` lookup is `none`).  Randomness (`random.randint`) and the
  clock (`datetime.now`) enter as explicit parameters.
-/

/-! ## metrics.py -/

/-- `calculate_ctr` from metrics.py:
`return clicks / impressions if impressions > 0 else 0`. -/
def calculate_ctr (impressions clicks : ℚ) : ℚ :=
  if impressions > 0 then clicks / impressions else 0

/-- `calculate_application_rate` from metrics.py:
`return applications / clicks if clicks > 0 else 0`. -/
def calculate_application_rate (clicks applications : ℚ) : ℚ :=
  if clicks > 0 then applications / clicks else 0

/-- `calculate_time_spent` from metrics.py:
`return sum(session_durations) / len(session_durations) if session_durations else 0`.
The Python truthiness test on a list is the non-emptiness test. -/
def calculate_time_spent (session_durations : List ℚ) : ℚ :=
  if session_durations = [] then 0
  else session_durations.sum / session_durations.length

/-! ## String primitives (Python `str` operations used by the scraper) -/

/-- Whether `pat` occurs at the head of `s` (character-list version). -/
def startsWithChars : List Char → List Char → Bool
  | [], _ => true
  | _ :: _, [] => false
  | a :: as, b :: bs => a == b && startsWithChars as bs

/-- Whether `pat` occurs as a contiguous run somewhere in `s`: the Python
substring test `pat in s`. -/
def occursInChars (pat : List Char) : List Char → Bool
  | [] => pat.isEmpty
  | c :: rest => startsWithChars pat (c :: rest) || occursInChars pat rest

/-- Python `needle in haystack` on strings. -/
def pyIn (needle haystack : String) : Bool :=
  occursInChars needle.data haystack.data

/-- Python `str.lower()` (ASCII case fold suffices for the fixed keyword
vocabularies used by the scraper). -/
def pyLower (s : String) : String :=
  String.mk (s.data.map Char.toLower)

/-- Python `str.strip()`: drop leading and trailing whitespace. -/
def pyStrip (s : String) : String :=
  String.mk (((s.data.dropWhile Char.isWhitespace).reverse.dropWhile
    Char.isWhitespace).reverse)

/-! ## Listing extractor (`_extract_job_data`) -/

/-- A job card as seen through the locator lookups `_extract_job_data`
performs.  Each field is the stripped-source text the corresponding
`find_element` chain resolves to; `none` means every selector of the chain
raised `NoSuchElementException` (for the link: no `a` element or no href). -/
structure CardEnv where
  titlePrimary : Option String
  titleFallback : Option String
  linkHref : Option String
  companyText : Option String
  locationText : Option String
  descriptionText : Option String
  salaryText : Option String
  jobTypeText : Option String
  dateText : Option String
  industryText : Option String

/-- One scraped listing, with the fields `_extract_job_data` returns. -/
structure JobRecord where
  job_id : String
  job_title : String
  company : String
  location : String
  description : String
  salary : String
  job_type : String
  posting_date : String
  job_url : String
  industry : String
  skills : String
  scraped_date : String

/-- `try: ... .text.strip() except NoSuchElementException: default` —
the ordered-fallback-with-default lookup used for most fields. -/
def resolveField (x : Option String) (default : String) : String :=
  match x with
  | some t => pyStrip t
  | none => default

/-- The two-stage title lookup (primary selector chain, then the fallback
selector chain, then the sentinel). -/
def resolveTitle (card : CardEnv) : String :=
  match card.titlePrimary with
  | some t => pyStrip t
  | none => resolveField card.titleFallback "N/A"

/-- The regex search `re.search(r'/(\d+)(?:\?|$)', job_url)`: first position
holding a slash followed by a digit run that ends at a question mark or at
the end of the string; returns the digit run. -/
def findIdMatch : List Char → Option (List Char)
  | [] => none
  | c :: rest =>
    if c = '/' then
      let ds := rest.takeWhile Char.isDigit
      let after := rest.dropWhile Char.isDigit
      if ds.isEmpty then findIdMatch rest
      else if after.isEmpty || after.headD ' ' == '?' then some ds
      else findIdMatch rest
    else findIdMatch rest

/-- The job id: digits parsed from the URL, else the random fallback token
`job_<r>` where `r` models `random.randint(10000, 99999)`. -/
def extractJobIdOf (href : Option String) (r : ℕ) : String :=
  match href with
  | some u =>
    match findIdMatch u.data with
    | some ds => String.mk ds
    | none => "job_" ++ toString r
  | none => "job_" ++ toString r

/-- The fixed industry keyword list of `_extract_job_data`. -/
def industries : List String :=
  ["Finance", "IT", "Healthcare", "Education", "Manufacturing",
   "Sales", "Marketing", "Engineering", "Admin", "Hospitality"]

/-- The fixed ten-term skill vocabulary of `_extract_job_data`. -/
def common_skills : List String :=
  ["python", "java", "sql", "excel", "communication", "leadership",
   "teamwork", "project management", "analysis", "problem solving"]

/-- The `for category in [...]: if ...: industry = category; break` loop:
first keyword whose lowercase form occurs in the lowered title or the
lowered description, else the initial value `Not specified`. -/
def inferIndustryAux : List String → String → String → String
  | [], _, _ => "Not specified"
  | cat :: rest, t, d =>
    if pyIn (pyLower cat) (pyLower t) || pyIn (pyLower cat) (pyLower d) then cat
    else inferIndustryAux rest t d

/-- Industry inference from title and description text. -/
def inferIndustry (t d : String) : String :=
  inferIndustryAux industries t d

/-- The skills heuristic: collect every vocabulary keyword occurring in the
lowered description, join with a comma, sentinel when none matched. -/
def extractSkills (description : String) : String :=
  let skills := common_skills.filter
    (fun sk => pyIn (pyLower sk) (pyLower description))
  if skills.isEmpty then "Not specified" else String.intercalate ", " skills

/-- `_extract_job_data`: resolve every field through its lookup chain with
its sentinel default; infer industry from title and description when no
dedicated industry element exists; match skills against the description. -/
def _extract_job_data (card : CardEnv) (r : ℕ) (now : String) : JobRecord :=
  { job_id := extractJobIdOf card.linkHref r
    job_title := resolveTitle card
    company := resolveField card.companyText "N/A"
    location := resolveField card.locationText "N/A"
    description := resolveField card.descriptionText "N/A"
    salary := resolveField card.salaryText "N/A"
    job_type := resolveField card.jobTypeText "N/A"
    posting_date := resolveField card.dateText "N/A"
    job_url :=
      (match card.linkHref with
       | some u => u
       | none => "N/A")
    industry :=
      (match card.industryText with
       | some t => pyStrip t
       | none =>
         inferIndustry (resolveTitle card) (resolveField card.descriptionText "N/A"))
    skills := extractSkills (resolveField card.descriptionText "N/A")
    scraped_date := now }

/-! ## Spec-side definitions for the extraction heuristics

These follow the wording of the specification, to be compared with the
definitions taken from the source. -/

/-- Spec wording for the skills value when matched against a given text:
the comma-joined list of exactly those vocabulary keywords whose lowercase
form occurs in the lowered text, in vocabulary order, with the sentinel
when none matches. -/
def specSkillsOfText (text : String) : String :=
  let ms := common_skills.filter (fun sk => pyIn (pyLower sk) (pyLower text))
  if ms.isEmpty then "Not specified" else String.intercalate ", " ms

/-- Spec wording for the claimed skills value computed from the
title+description text (the concatenation of both). -/
def claimSkillsTitleDesc (title description : String) : String :=
  specSkillsOfText (title ++ description)

/-- Spec wording for industry inference: the first keyword of the fixed
list whose lowercase form occurs in the lowered title or the lowered
description, else the sentinel. -/
def specIndustryOf (title description : String) : String :=
  match industries.find?
    (fun cat => pyIn (pyLower cat) (pyLower title) || pyIn (pyLower cat) (pyLower description)) with
  | some cat => cat
  | none => "Not specified"

/-! ## Collector / exporter (`save_to_csv`)

The record rows are held abstractly as lists of cell values in column
order.  `DataFrame.to_csv(..., quoting=csv.QUOTE_ALL)` is an external
collaborator; its documented effect — one header row plus one row per
record, every cell quoted with inner quotes doubled — is modelled by
`csvContent`. -/

/-- Double every quote character, the quoted-field escape of the CSV
writer. -/
def quoteEscape (s : String) : String :=
  String.mk (s.data.foldr
    (fun c acc => (if c = '"' then ['"', '"'] else [c]) ++ acc) [])

/-- Wrap a cell value in quotes (QUOTE_ALL: every value is quoted). -/
def quoteCell (s : String) : String :=
  "\"" ++ quoteEscape s ++ "\""

/-- One fully-quoted CSV row. -/
def csvRow (cells : List String) : String :=
  String.intercalate "," (cells.map quoteCell)

/-- The JobRecord column names in fixed order (the dict insertion order of
`_extract_job_data`, plus the `search_query` key added by `scrape_jobs`). -/
def fieldNames : List String :=
  ["job_id", "job_title", "company", "location", "description", "salary",
   "job_type", "posting_date", "job_url", "industry", "skills",
   "scraped_date", "search_query"]

/-- The lines written for a job list: header row, then one fully-quoted row
per record. -/
def csvContent (jobs : List (List String)) : List String :=
  csvRow fieldNames :: jobs.map csvRow

/-- `os.path.splitext` on a bare filename: split at the last dot, unless
every character before the last dot is itself a dot (then no extension). -/
def pySplitext (s : String) : String × String :=
  let cs := s.data
  let revTail := cs.reverse.takeWhile (fun c => c ≠ '.')
  if revTail.length = cs.length then (s, "")
  else
    let cut := cs.length - revTail.length - 1
    if (cs.take cut).any (fun c => c ≠ '.') then
      (String.mk (cs.take cut), String.mk (cs.drop cut))
    else (s, "")

/-- The timestamped output name built by `save_to_csv`:
`f"{os.path.splitext(filename)[0]}_{timestamp}{os.path.splitext(filename)[1]}"`. -/
def csvFilename (filename timestamp : String) : String :=
  (pySplitext filename).1 ++ "_" ++ timestamp ++ (pySplitext filename).2

/-- The file system visible to the exporter: written paths with their
lines, most recent first. -/
structure ScrapeFs where
  files : List (String × List String)

/-- The collector state: the in-memory `self.jobs` sequence (rows of cell
values) and the file system. -/
structure ScraperSt where
  jobs : List (List String)
  fs : ScrapeFs

/-- `save_to_csv`: empty job list — print and return `None`, nothing
written; otherwise build the timestamped filename and write all rows,
returning the realized path; an exception during the write (`ioError`) is
caught and `None` returned, the collector state untouched. -/
def save_to_csv (st : ScraperSt) (filename timestamp : String)
    (ioError : Bool) : Option String × ScraperSt :=
  if st.jobs.isEmpty then (none, st)
  else
    let path := csvFilename filename timestamp
    if ioError then (none, st)
    else (some path, { st with fs := ⟨(path, csvContent st.jobs) :: st.fs.files⟩ })

/-! ## `scrape_jobs` control flow

The nested query/page loops are driven by a plan: for each query, the
sequence of events its pages produce.  A page either yields extracted
job rows, raises an error caught by the per-page `except` (the loop
continues), or raises an error outside the per-page `try` that propagates
out of the loops (modelling e.g. a dead-driver failure between pages or
queries).  `scrape_jobs` wraps the whole loop nest in `try/finally` with
`self.driver.quit()` in the `finally` block; the action trace records what
the session did, so teardown is observable. -/

/-- What happens when one page of one query is processed. -/
inductive PageEvent
  | cards (jobs : List (List String))
  | pageErr
  | fatalErr

/-- Observable actions of a scraping run. -/
inductive Act
  | navigate (query : String) (page : ℕ)
  | record (row : List String)
  | quit
deriving DecidableEq

/-- The inner page loop of one query: accumulate jobs, swallow per-page
errors, abort with `true` on a fatal error. -/
def runPages (query : String) : ℕ → List PageEvent → List (List String) →
    List Act → List (List String) × List Act × Bool
  | _, [], jobs, tr => (jobs, tr, false)
  | p, PageEvent.cards js :: rest, jobs, tr =>
    runPages query (p + 1) rest (jobs ++ js)
      (tr ++ Act.navigate query p :: js.map Act.record)
  | p, PageEvent.pageErr :: rest, jobs, tr =>
    runPages query (p + 1) rest jobs (tr ++ [Act.navigate query p])
  | p, PageEvent.fatalErr :: _, jobs, tr =>
    (jobs, tr ++ [Act.navigate query p], true)

/-- The outer query loop: run each query until done or a fatal error
propagates. -/
def runQueries : List (String × List PageEvent) → List (List String) →
    List Act → List (List String) × List Act × Bool
  | [], jobs, tr => (jobs, tr, false)
  | (q, evs) :: rest, jobs, tr =>
    match runPages q 1 evs jobs tr with
    | (jobs2, tr2, true) => (jobs2, tr2, true)
    | (jobs2, tr2, false) => runQueries rest jobs2 tr2

/-- `scrape_jobs`: the loop nest inside `try`, `self.driver.quit()` in
`finally` — the quit action is appended to the trace whether the body
completed or raised, and a raised error is then re-thrown. -/
def scrape_jobs (plan : List (String × List PageEvent))
    (jobs0 : List (List String)) :
    Except Unit (List (List String)) × List Act :=
  match runQueries plan jobs0 [] with
  | (_, tr, true) => (Except.error (), tr ++ [Act.quit])
  | (jobsF, tr, false) => (Except.ok jobsF, tr ++ [Act.quit])

/-! ## `scrape_job_details` window management

The driver window state is a list of window handles in creation order plus
the focused handle.  `driver.close()` removes the focused handle;
`driver.switch_to.window(h)` moves focus.  A failure can be injected at
the `window.open` script, at the switch to the new tab, or at the
page-load wait — the three operations before the extraction block whose
exceptions reach the outer `except` handler. -/

/-- Browser window state: handles in creation order and the focused
handle. -/
structure Win where
  handles : List ℕ
  focus : ℕ
deriving DecidableEq

/-- `driver.close()`: remove the currently focused handle. -/
def closeCurrent (w : Win) : Win :=
  ⟨w.handles.filter (fun h => h ≠ w.focus), w.focus⟩

/-- `driver.switch_to.window(h)`. -/
def switchTo (w : Win) (h : ℕ) : Win :=
  ⟨w.handles, h⟩

/-- Injection points for a raised exception inside `scrape_job_details`. -/
inductive DetailFail
  | openTab
  | switchToNew
  | waitLoad
deriving DecidableEq

/-- The detail page as seen through the lookups of `scrape_job_details`:
`none` is a failed lookup; `skillTags` is the `find_elements` result list
(possibly empty). -/
structure DetailEnv where
  descText : Option String
  careerLevel : Option String
  qualificationText : Option String
  yearsExp : Option String
  skillTags : List String

/-- The dict returned by `scrape_job_details`: the failure return holds
only the `full_description` sentinel, so the other keys are `none` there. -/
structure DetailResult where
  full_description : String
  experience_level : Option String
  qualification : Option String
  years_of_experience : Option String
  required_skills : Option String
deriving DecidableEq

/-- The failure return value `{'full_description': "Failed to retrieve full description"}`. -/
def detailFailureResult : DetailResult :=
  ⟨"Failed to retrieve full description", none, none, none, none⟩

/-- The outer `except` handler of `scrape_job_details`: if more than one
handle exists, `driver.close()` the focused window and switch to
`window_handles[0]` of what remains. -/
def detailErrorHandler (w : Win) : Win :=
  if w.handles.length > 1 then
    let w2 := closeCurrent w
    match w2.handles.head? with
    | some h0 => switchTo w2 h0
    | none => w2
  else w

/-- `scrape_job_details`: open the url in a new tab (`newH` is the fresh
handle), switch to `window_handles[1]`, wait for the description marker,
extract the four labeled fields with their defaults, close the tab and
switch back to `window_handles[0]`.  Any exception reaches the outer
handler, which attempts cleanup and returns the sentinel dict — the
function itself never raises. -/
def scrape_job_details (w : Win) (newH : ℕ) (env : DetailEnv)
    (failAt : Option DetailFail) : DetailResult × Win :=
  if failAt = some DetailFail.openTab then
    (detailFailureResult, detailErrorHandler w)
  else
    let w1 : Win := ⟨w.handles ++ [newH], w.focus⟩
    if failAt = some DetailFail.switchToNew then
      (detailFailureResult, detailErrorHandler w1)
    else
      match w1.handles[1]? with
      | none => (detailFailureResult, detailErrorHandler w1)
      | some h1 =>
        let w2 := switchTo w1 h1
        if failAt = some DetailFail.waitLoad then
          (detailFailureResult, detailErrorHandler w2)
        else
          let fd :=
            match env.descText with
            | some t => pyStrip t
            | none => "Failed to retrieve full description"
          let el := resolveField env.careerLevel "Not specified"
          let ql := resolveField env.qualificationText "Not specified"
          let ye := resolveField env.yearsExp "Not specified"
          let rs := String.intercalate ", " (env.skillTags.map pyStrip)
          let w3 := closeCurrent w2
          let w4 :=
            match w3.handles.head? with
            | some h0 => switchTo w3 h0
            | none => w3
          (⟨fd, some el, some ql, some ye, some rs⟩, w4)

/-! ## Theorems -/

/-- C1: for every positive impressions count, `calculate_ctr` is the exact
quotient clicks/impressions, and it is 0 at zero impressions for any
clicks; likewise `calculate_application_rate` is applications/clicks for
positive clicks and 0 at zero clicks for any applications. -/
theorem calculate_rates_spec (impressions clicks applications : ℚ) :
    (0 < impressions → calculate_ctr impressions clicks = clicks / impressions) ∧
    calculate_ctr 0 clicks = 0 ∧
    (0 < clicks → calculate_application_rate clicks applications = applications / clicks) ∧
    calculate_application_rate 0 applications = 0 := by
  refine ⟨fun h => ?_, ?_, fun h => ?_, ?_⟩ <;>
    simp [calculate_ctr, calculate_application_rate, *]

/-- Witness for C1 at impressions 4, clicks 2, applications 3. -/
theorem calculate_rates_spec_witness :
    calculate_ctr 4 2 = 2 / 4 ∧ calculate_ctr 0 2 = 0 ∧
    calculate_application_rate 2 3 = 3 / 2 ∧ calculate_application_rate 0 3 = 0 :=
  have h := calculate_rates_spec 4 2 3
  ⟨h.1 (by norm_num), h.2.1, h.2.2.1 (by norm_num), h.2.2.2⟩

/-- C2: `calculate_time_spent` is 0 on the empty list and the arithmetic
mean (sum over length) on every non-empty list; the list 10, 20, 30 gives
20. -/
theorem calculate_time_spent_spec (l : List ℚ) (h : l ≠ []) :
    calculate_time_spent l = l.sum / l.length ∧
    calculate_time_spent [] = 0 ∧
    calculate_time_spent [10, 20, 30] = 20 := by
  refine ⟨by simp [calculate_time_spent, h], rfl, ?_⟩
  have h3 : ([10, 20, 30] : List ℚ) ≠ [] := List.cons_ne_nil _ _
  rw [calculate_time_spent, if_neg h3]
  norm_num

/-- Witness for C2 at the list 10, 20, 30. -/
theorem calculate_time_spent_spec_witness :
    calculate_time_spent [10, 20, 30] =
      ([10, 20, 30] : List ℚ).sum / ([10, 20, 30] : List ℚ).length :=
  (calculate_time_spent_spec [10, 20, 30] (List.cons_ne_nil _ _)).1

/-- C10: the guards are strict greater-than tests, so every non-positive
denominator — zero or negative — yields 0 without evaluating the quotient,
and `calculate_time_spent` divides only when the list is non-empty, where
its length is non-zero. -/
theorem metrics_guard_nonpositive (impressions clicks applications : ℚ)
    (l : List ℚ) (h1 : impressions ≤ 0) (h2 : clicks ≤ 0) (h3 : l ≠ []) :
    calculate_ctr impressions clicks = 0 ∧
    calculate_application_rate clicks applications = 0 ∧
    calculate_time_spent [] = 0 ∧
    (calculate_time_spent l = l.sum / l.length ∧ (l.length : ℚ) ≠ 0) := by
  refine ⟨?_, ?_, rfl, by simp [calculate_time_spent, h3], ?_⟩
  · simp [calculate_ctr, not_lt.mpr h1]
  · simp [calculate_application_rate, not_lt.mpr h2]
  · simpa using h3

/-- Witness for C10 at impressions -1, clicks -2, applications 5 and the
list 3, 4. -/
theorem metrics_guard_nonpositive_witness :
    calculate_ctr (-1) (-2) = 0 ∧
    calculate_application_rate (-2) 5 = 0 ∧
    calculate_time_spent [] = 0 ∧
    (calculate_time_spent [3, 4] = ([3, 4] : List ℚ).sum / ([3, 4] : List ℚ).length ∧
      (([3, 4] : List ℚ).length : ℚ) ≠ 0) :=
  metrics_guard_nonpositive (-1) (-2) 5 [3, 4] (by norm_num) (by norm_num)
    (List.cons_ne_nil _ _)

/-- The first-match loop of the industry heuristic agrees with `find?`
over the same predicate. -/
theorem inferIndustryAux_eq_find (cats : List String) (t d : String) :
    inferIndustryAux cats t d =
      match cats.find?
        (fun cat => pyIn (pyLower cat) (pyLower t) || pyIn (pyLower cat) (pyLower d)) with
      | some cat => cat
      | none => "Not specified" := by
  induction cats with
  | nil => rfl
  | cons c rest ih =>
    by_cases hc : (pyIn (pyLower c) (pyLower t) || pyIn (pyLower c) (pyLower d)) = true
    · simp [inferIndustryAux, List.find?_cons, hc]
    · simp only [Bool.not_eq_true] at hc
      simp [inferIndustryAux, List.find?_cons, hc, ih]

/-- When no keyword matches either text, the industry loop leaves the
sentinel in place. -/
theorem inferIndustryAux_none (cats : List String) (t d : String)
    (h : ∀ c ∈ cats, pyIn (pyLower c) (pyLower t) = false ∧
      pyIn (pyLower c) (pyLower d) = false) :
    inferIndustryAux cats t d = "Not specified" := by
  induction cats with
  | nil => rfl
  | cons c rest ih =>
    have hc := h c (by simp)
    simp only [inferIndustryAux, hc.1, hc.2, Bool.or_self, if_false]
    exact ih fun x hx => h x (by simp [hx])

/-- C3 counterexample: the claim matches skills against the
title+description text, but the code searches only the description.  A
card titled `Python Developer` with description `Exciting role` yields the
skills sentinel, while the claimed title+description match yields
`python`. -/
theorem skills_title_not_searched_cex :
    (_extract_job_data ⟨some "Python Developer", none, none, none, none,
        some "Exciting role", none, none, none, none⟩ 0 "ts").skills
      = "Not specified" ∧
    claimSkillsTitleDesc "Python Developer" "Exciting role" = "python" ∧
    (_extract_job_data ⟨some "Python Developer", none, none, none, none,
        some "Exciting role", none, none, none, none⟩ 0 "ts").skills
      ≠ claimSkillsTitleDesc "Python Developer" "Exciting role" := by
  refine ⟨by decide, by decide, by decide⟩

/-- C3 amended: for every card, the skills value is the comma-joined list
of exactly those vocabulary keywords whose lowercase form occurs in the
lowered description text alone (not title+description), in vocabulary
order, with the sentinel when none matches; a description containing
`python` and `leadership` and no other keyword gives exactly those two
terms in vocabulary order. -/
theorem skills_from_description_spec :
    (∀ (card : CardEnv) (r : ℕ) (now : String),
      (_extract_job_data card r now).skills =
        specSkillsOfText (_extract_job_data card r now).description) ∧
    (_extract_job_data ⟨some "T", none, none, none, none,
        some "python and leadership role", none, none, none, none⟩ 0 "ts").skills
      = "python, leadership" := by
  exact ⟨fun card r now => rfl, by decide⟩

/-- C4 counterexample: a card whose title and description match no industry
keyword gets the literal sentinel `Not specified`, not `unspecified` as the
claim states. -/
theorem industry_sentinel_cex :
    (_extract_job_data ⟨some "Baker", none, none, none, none,
        some "bake bread", none, none, none, none⟩ 0 "ts").industry
      = "Not specified" ∧
    (_extract_job_data ⟨some "Baker", none, none, none, none,
        some "bake bread", none, none, none, none⟩ 0 "ts").industry
      ≠ "unspecified" := by
  refine ⟨by decide, by decide⟩

/-- C4 amended: with no dedicated industry element, the industry is the
first keyword of the fixed list whose lowercase form occurs in the lowered
title or the lowered description, else the sentinel `Not specified` (the
claim said `unspecified`). -/
theorem industry_inference_spec (card : CardEnv) (r : ℕ) (now : String)
    (h : card.industryText = none) :
    (_extract_job_data card r now).industry =
      specIndustryOf (_extract_job_data card r now).job_title
        (_extract_job_data card r now).description := by
  simp only [_extract_job_data, h, specIndustryOf, inferIndustry]
  exact inferIndustryAux_eq_find industries (resolveTitle card)
    (resolveField card.descriptionText "N/A")

/-- Witness for C4: the title `Senior Finance Manager` with empty
description and no dedicated industry element yields `Finance`. -/
theorem industry_inference_spec_witness :
    (_extract_job_data ⟨some "Senior Finance Manager", none, none, none, none,
        some "", none, none, none, none⟩ 0 "ts").industry =
      specIndustryOf
        (_extract_job_data ⟨some "Senior Finance Manager", none, none, none, none,
          some "", none, none, none, none⟩ 0 "ts").job_title
        (_extract_job_data ⟨some "Senior Finance Manager", none, none, none, none,
          some "", none, none, none, none⟩ 0 "ts").description ∧
    (_extract_job_data ⟨some "Senior Finance Manager", none, none, none, none,
        some "", none, none, none, none⟩ 0 "ts").industry = "Finance" :=
  ⟨industry_inference_spec ⟨some "Senior Finance Manager", none, none, none, none,
      some "", none, none, none, none⟩ 0 "ts" rfl,
    by decide⟩

/-- C5 counterexample: a card exposing only a title element does not give
every non-title field its sentinel — industry is inferred from the title,
so the title `Finance Analyst` alone sets industry to `Finance`. -/
theorem title_only_industry_cex :
    (_extract_job_data ⟨some "Finance Analyst", none, none, none, none,
        none, none, none, none, none⟩ 0 "ts").industry = "Finance" ∧
    (_extract_job_data ⟨some "Finance Analyst", none, none, none, none,
        none, none, none, none, none⟩ 0 "ts").industry ≠ "Not specified" := by
  refine ⟨by decide, by decide⟩

/-- C5 amended: for a card exposing only a title element, every non-title
field with a documented sentinel gets that sentinel and the job id is the
random fallback token — provided the title text contains no industry
keyword; a matching title sets the industry field instead. -/
theorem title_only_defaults_spec (card : CardEnv) (r : ℕ) (now : String)
    (hlink : card.linkHref = none) (hcomp : card.companyText = none)
    (hloc : card.locationText = none) (hdesc : card.descriptionText = none)
    (hsal : card.salaryText = none) (hjt : card.jobTypeText = none)
    (hdate : card.dateText = none) (hind : card.industryText = none)
    (htitle : ∀ c ∈ industries, pyIn (pyLower c) (pyLower (resolveTitle card)) = false) :
    (_extract_job_data card r now).company = "N/A" ∧
    (_extract_job_data card r now).location = "N/A" ∧
    (_extract_job_data card r now).description = "N/A" ∧
    (_extract_job_data card r now).salary = "N/A" ∧
    (_extract_job_data card r now).job_type = "N/A" ∧
    (_extract_job_data card r now).posting_date = "N/A" ∧
    (_extract_job_data card r now).job_url = "N/A" ∧
    (_extract_job_data card r now).job_id = "job_" ++ toString r ∧
    (_extract_job_data card r now).industry = "Not specified" ∧
    (_extract_job_data card r now).skills = "Not specified" := by
  have hna : ∀ c ∈ industries, pyIn (pyLower c) (pyLower "N/A") = false := by decide
  refine ⟨?_, ?_, ?_, ?_, ?_, ?_, ?_, ?_, ?_, ?_⟩ <;>
    simp only [_extract_job_data, hlink, hcomp, hloc, hdesc, hsal, hjt, hdate, hind,
      resolveField, extractJobIdOf, inferIndustry]
  · exact inferIndustryAux_none industries (resolveTitle card) "N/A"
      fun c hc => ⟨htitle c hc, hna c hc⟩
  · decide

/-- Witness for C5 at a card exposing only the title `Baker`, which matches
no industry keyword. -/
theorem title_only_defaults_spec_witness :
    (_extract_job_data ⟨some "Baker", none, none, none, none,
        none, none, none, none, none⟩ 7 "ts").company = "N/A" ∧
    (_extract_job_data ⟨some "Baker", none, none, none, none,
        none, none, none, none, none⟩ 7 "ts").location = "N/A" ∧
    (_extract_job_data ⟨some "Baker", none, none, none, none,
        none, none, none, none, none⟩ 7 "ts").description = "N/A" ∧
    (_extract_job_data ⟨some "Baker", none, none, none, none,
        none, none, none, none, none⟩ 7 "ts").salary = "N/A" ∧
    (_extract_job_data ⟨some "Baker", none, none, none, none,
        none, none, none, none, none⟩ 7 "ts").job_type = "N/A" ∧
    (_extract_job_data ⟨some "Baker", none, none, none, none,
        none, none, none, none, none⟩ 7 "ts").posting_date = "N/A" ∧
    (_extract_job_data ⟨some "Baker", none, none, none, none,
        none, none, none, none, none⟩ 7 "ts").job_url = "N/A" ∧
    (_extract_job_data ⟨some "Baker", none, none, none, none,
        none, none, none, none, none⟩ 7 "ts").job_id = "job_" ++ toString 7 ∧
    (_extract_job_data ⟨some "Baker", none, none, none, none,
        none, none, none, none, none⟩ 7 "ts").industry = "Not specified" ∧
    (_extract_job_data ⟨some "Baker", none, none, none, none,
        none, none, none, none, none⟩ 7 "ts").skills = "Not specified" :=
  title_only_defaults_spec ⟨some "Baker", none, none, none, none,
      none, none, none, none, none⟩ 7 "ts"
    rfl rfl rfl rfl rfl rfl rfl rfl (by decide)

/-- String concatenation acts as list concatenation on the underlying
character data. -/
theorem strData_append (a b : String) : (a ++ b).data = a.data ++ b.data := by
  cases a; cases b; rfl

/-- Distinct timestamps give distinct timestamped output names for the same
base filename. -/
theorem csvFilename_ne (filename ts1 ts2 : String) (hts : ts1 ≠ ts2) :
    csvFilename filename ts1 ≠ csvFilename filename ts2 := by
  intro h
  apply hts
  have hd := congrArg String.data h
  simp only [csvFilename, strData_append] at hd
  have h1 := List.append_cancel_right hd
  have h2 := List.append_cancel_left h1
  cases ts1
  cases ts2
  simp only at h2
  rw [h2]

/-- C6: exporting zero records writes nothing and returns no path;
exporting at least one record writes the header and every record as one
fully-quoted row under the timestamped name and returns that path; a
second export under a different timestamp adds a second file without
overwriting the first, and the two realized paths are distinct. -/
theorem save_to_csv_spec (st stE : ScraperSt) (filename ts1 ts2 : String)
    (hne : st.jobs ≠ []) (hemp : stE.jobs = []) (hts : ts1 ≠ ts2) :
    save_to_csv stE filename ts1 false = (none, stE) ∧
    (save_to_csv st filename ts1 false).1 = some (csvFilename filename ts1) ∧
    ((save_to_csv st filename ts1 false).2).fs.files =
      (csvFilename filename ts1, csvContent st.jobs) :: st.fs.files ∧
    ((save_to_csv ((save_to_csv st filename ts1 false).2) filename ts2 false).2).fs.files =
      (csvFilename filename ts2, csvContent st.jobs) ::
        (csvFilename filename ts1, csvContent st.jobs) :: st.fs.files ∧
    csvFilename filename ts1 ≠ csvFilename filename ts2 := by
  refine ⟨by simp [save_to_csv, hemp], ?_, ?_, ?_, csvFilename_ne filename ts1 ts2 hts⟩ <;>
    simp [save_to_csv, hne]

/-- Witness for C6 with a one-record collector and timestamps one second
apart. -/
theorem save_to_csv_spec_witness :
    save_to_csv ⟨[], ⟨[]⟩⟩ "jobs.csv" "20240101_120000" false = (none, ⟨[], ⟨[]⟩⟩) ∧
    (save_to_csv ⟨[["1", "t"]], ⟨[]⟩⟩ "jobs.csv" "20240101_120000" false).1 =
      some (csvFilename "jobs.csv" "20240101_120000") ∧
    ((save_to_csv ⟨[["1", "t"]], ⟨[]⟩⟩ "jobs.csv" "20240101_120000" false).2).fs.files =
      (csvFilename "jobs.csv" "20240101_120000", csvContent [["1", "t"]]) :: [] ∧
    ((save_to_csv ((save_to_csv ⟨[["1", "t"]], ⟨[]⟩⟩ "jobs.csv" "20240101_120000" false).2)
        "jobs.csv" "20240101_120001" false).2).fs.files =
      (csvFilename "jobs.csv" "20240101_120001", csvContent [["1", "t"]]) ::
        (csvFilename "jobs.csv" "20240101_120000", csvContent [["1", "t"]]) :: [] ∧
    csvFilename "jobs.csv" "20240101_120000" ≠ csvFilename "jobs.csv" "20240101_120001" :=
  save_to_csv_spec ⟨[["1", "t"]], ⟨[]⟩⟩ ⟨[], ⟨[]⟩⟩ "jobs.csv"
    "20240101_120000" "20240101_120001"
    (List.cons_ne_nil _ _) rfl (by decide)

/-- C7: `save_to_csv` reads but never assigns the in-memory job sequence:
after any export attempt — empty collector, successful write, or a write
that raises — the collector holds exactly the jobs it held before, so the
export can be retried. -/
theorem save_to_csv_preserves_jobs (st : ScraperSt) (filename timestamp : String)
    (ioError : Bool) :
    ((save_to_csv st filename timestamp ioError).2).jobs = st.jobs := by
  by_cases h : st.jobs.isEmpty <;> by_cases h2 : ioError <;>
    simp [save_to_csv, h, h2]

/-- C8: on every execution path of `scrape_jobs` — the loop nest completing
normally or a fatal error propagating out of it — the final action of the
run is the `driver.quit` teardown, performed before the function returns or
re-raises. -/
theorem scrape_jobs_always_quits (plan : List (String × List PageEvent))
    (jobs0 : List (List String)) :
    ((scrape_jobs plan jobs0).2).getLast? = some Act.quit := by
  unfold scrape_jobs
  rcases hr : runQueries plan jobs0 [] with ⟨j, tr, b⟩
  cases b <;> simp

/-- C9: evaluating `scrape_job_details` at the failing input.  When the
switch to the freshly opened tab raises while focus is still on the primary
window (handle 0, with the auxiliary handle 1 already open), the except
handler closes the focused primary window and then switches to the sole
remaining handle — so the run ends with the auxiliary tab open and focused
and the primary window destroyed, although the sentinel dict is returned
without raising.  On the success path the cleanup is correct: the auxiliary
is closed and the primary focused again. -/
theorem scrape_job_details_switch_failure_eval :
    (scrape_job_details ⟨[0], 0⟩ 1 ⟨none, none, none, none, []⟩
        (some DetailFail.switchToNew)).2 = ⟨[1], 1⟩ ∧
    (scrape_job_details ⟨[0], 0⟩ 1 ⟨none, none, none, none, []⟩
        (some DetailFail.switchToNew)).1 = detailFailureResult ∧
    (scrape_job_details ⟨[0], 0⟩ 1 ⟨none, none, none, none, []⟩ none).2 = ⟨[0], 0⟩ := by
  refine ⟨by decide, by decide, by decide⟩
